import Mathlib

/-!
Verification of the Smart Witness pairing/claim state machine
(src/smart_witness_fixed.ino) against its natural-language specification.

Arduino `String` values are embedded as `List Char`; `millis()` timestamps as
`Nat`; the Telegram transport is passed in explicitly (a fetched batch of
messages, an outbound-send success flag).  Each definition below names the
source function it translates.
-/

namespace SmartWitness

/-- Arduino `String` contents, embedded as a list of characters. -/
abbrev Str := List Char

/-- The whitespace class used by Arduino `String::trim` (C `isspace`):
space, tab, line feed, vertical tab, form feed, carriage return. -/
def isSpaceChar (c : Char) : Bool :=
  c.toNat = 32 || c.toNat = 9 || c.toNat = 10 || c.toNat = 11 ||
  c.toNat = 12 || c.toNat = 13

/-- Arduino `String::trim`: remove leading and trailing whitespace. -/
def trimStr (l : Str) : Str :=
  ((l.dropWhile isSpaceChar).reverse.dropWhile isSpaceChar).reverse

/-- ASCII `tolower` applied per character by Arduino `String::toLowerCase`:
codes 65..90 are shifted to 97..122, all other characters are unchanged. -/
def lowerChar (c : Char) : Char :=
  if 65 ≤ c.toNat ∧ c.toNat ≤ 90 then Char.ofNat (c.toNat + 32) else c

/-- Arduino `String::toLowerCase`. -/
def lowerStr (l : Str) : Str := l.map lowerChar

/-- Embeds `normalizeTelegramUsername` (src/smart_witness_fixed.ino:1493-1500):
trim, lowercase, then prepend the sigil character when it is missing. -/
def normalizeTelegramUsername (username : Str) : Str :=
  if ['@'].isPrefixOf (lowerStr (trimStr username)) then lowerStr (trimStr username)
  else '@' :: lowerStr (trimStr username)

/-- The character test of the loop in `validateTelegramUsername`
(src/smart_witness_fixed.ino:1511): lowercase letter, digit, or underscore. -/
def isAllowedUserChar (c : Char) : Bool :=
  (97 ≤ c.toNat && c.toNat ≤ 122) || (48 ≤ c.toNat && c.toNat ≤ 57) ||
  c.toNat == 95

/-- Embeds `validateTelegramUsername` (src/smart_witness_fixed.ino:1502-1517):
normalize, then check length 2..33, the leading sigil, and that every
character after the sigil is a lowercase letter, digit or underscore. -/
def validateTelegramUsername (username : Str) : Bool :=
  if (normalizeTelegramUsername username).length < 2 then false
  else if 33 < (normalizeTelegramUsername username).length then false
  else if !(['@'].isPrefixOf (normalizeTelegramUsername username)) then false
  else ((normalizeTelegramUsername username).drop 1).all isAllowedUserChar

/-- Status strings notified over the configuration link by
`processBLEConfiguration` (src/smart_witness_fixed.ino:622-697); only the
validation-gate outcomes are relevant here. -/
inductive BLEStatus where
  | error_invalid_data
  | error_invalid_telegram_user
  | config_received
  deriving DecidableEq, Repr

/-- Embeds the validation gate of `processBLEConfiguration`
(src/smart_witness_fixed.ino:630-660): an empty required field is rejected
first, then an owner identity failing `validateTelegramUsername`; an accepted
payload reaches the `config_received` status. -/
def processBLEConfigStatus (ssid password telegramUser : Str) : BLEStatus :=
  if ssid.length = 0 || password.length = 0 || telegramUser.length = 0 then
    .error_invalid_data
  else if !(validateTelegramUsername telegramUser) then
    .error_invalid_telegram_user
  else
    .config_received

/-- Arduino `String::indexOf(sub) != -1`: does `pat` occur as a contiguous
substring of `text`? -/
def containsSub : Str → Str → Bool
  | [], pat => pat.isPrefixOf []
  | c :: rest, pat => pat.isPrefixOf (c :: rest) || containsSub rest pat

/-- One message fetched from the Telegram transport, with the fields the
sketch reads from `bot->messages[i]`. -/
structure Msg where
  chat_id : Str
  text : Str
  from_name : Str
  from_id : Str
  deriving DecidableEq, Repr

/-! Timing and budget constants (src/smart_witness_fixed.ino:161-167). -/

def BLE_SESSION_TIMEOUT : Nat := 900000
def AUTO_RESPONSE_POLL_INTERVAL : Nat := 2000
def AUTO_RESPONSE_TIMEOUT : Nat := 600000
def PERSONAL_CONFIG_TIMEOUT : Nat := 180000
def GROUP_WAIT_TIMEOUT : Nat := 300000
def MAX_AUTO_RESPONSE_ATTEMPTS : Nat := 300
def MAX_AUTO_RESPONSES_PER_SESSION : Nat := 5

/-- The fields of the global `bleSession` (src/smart_witness_fixed.ino:120-138)
read or written by the auto-response system. -/
structure BLESession where
  deviceId : Str
  expectedTelegramUser : Str
  tempChatId : Str
  telegramConfigured : Bool
  autoResponseEnabled : Bool
  isPollingActive : Bool
  lastPollTime : Nat
  pollAttempts : Nat
  autoResponsesSent : Nat
  waitingForTelegramUser : Bool
  autoResponseTimeout : Nat
  deriving DecidableEq, Repr

/-- Embeds `stopTelegramAutoResponse` (src/smart_witness_fixed.ino:847-862),
restricted to its session-state effect. -/
def stopTelegramAutoResponse (sess : BLESession) : BLESession :=
  if !sess.autoResponseEnabled then sess
  else { sess with autoResponseEnabled := false, isPollingActive := false,
                   waitingForTelegramUser := false }

/-- Embeds `handleAutoResponseMessage` (src/smart_witness_fixed.ino:941-997).
The message is recognised as the auto-config command when its text merely
STARTS WITH `"/start " + deviceId` (line 945); the sender fields are logged
but never compared against `expectedTelegramUser`.  `sendOK` is the result of
the outbound `safeSendMessage` call.  Returns (recognised-and-completed,
updated session). -/
def handleAutoResponseMessage (sess : BLESession) (sendOK : Bool) (m : Msg) :
    Bool × BLESession :=
  if !(("/start ".data ++ sess.deviceId).isPrefixOf m.text) then (false, sess)
  else if MAX_AUTO_RESPONSES_PER_SESSION ≤ sess.autoResponsesSent then (false, sess)
  else if sendOK then
    (true, { sess with autoResponsesSent := sess.autoResponsesSent + 1,
                       tempChatId := m.chat_id, telegramConfigured := true })
  else (false, sess)

/-- The message loop of `processTelegramAutoResponse`
(src/smart_witness_fixed.ino:920-935): scan the fetched batch and stop at the
first message `handleAutoResponseMessage` accepts. -/
def scanAutoResponse (sess : BLESession) (sendOK : Bool) :
    List Msg → Bool × BLESession
  | [] => (false, sess)
  | m :: rest =>
    let r := handleAutoResponseMessage sess sendOK m
    if r.1 then (true, r.2) else scanAutoResponse r.2 sendOK rest

/-- Embeds `processTelegramAutoResponse` (src/smart_witness_fixed.ino:864-939):
guard on the enabled flags, then the wall-clock deadline, then the attempt
budget, then the poll interval; a failed fetch (`fetched = none`) and an empty
batch are both "no event this tick".  Deadline and budget exhaustion both run
`stopTelegramAutoResponse` and return false. -/
def processTelegramAutoResponse (now : Nat) (sess : BLESession)
    (fetched : Option (List Msg)) (sendOK : Bool) : Bool × BLESession :=
  if !sess.autoResponseEnabled || !sess.isPollingActive then (false, sess)
  else if sess.autoResponseTimeout < now then (false, stopTelegramAutoResponse sess)
  else if MAX_AUTO_RESPONSE_ATTEMPTS ≤ sess.pollAttempts then
    (false, stopTelegramAutoResponse sess)
  else if now - sess.lastPollTime < AUTO_RESPONSE_POLL_INTERVAL then (false, sess)
  else
    let sess := { sess with lastPollTime := now,
                            pollAttempts := sess.pollAttempts + 1 }
    match fetched with
    | none => (false, sess)
    | some msgs =>
      let r := scanAutoResponse sess sendOK msgs
      if r.1 then (true, stopTelegramAutoResponse r.2) else (false, r.2)

/-! ### The AUTO Telegram workflow (phase 1: personal claim, phase 2: group). -/

/-- `AutoTelegramPhase` (src/smart_witness_fixed.ino:143-148). -/
inductive AutoTelegramPhase where
  | AUTO_PHASE_PERSONAL_CONFIG
  | AUTO_PHASE_WAITING_FOR_GROUP
  | AUTO_PHASE_GROUP_CONFIGURED
  | AUTO_PHASE_COMPLETE
  deriving DecidableEq, Repr

/-- `AutoTelegramSession` (src/smart_witness_fixed.ino:150-156). -/
structure AutoTelegramSession where
  currentPhase : AutoTelegramPhase
  phaseStartTime : Nat
  pollAttempts : Nat
  personalChatId : Str
  groupChatId : Str
  deriving DecidableEq, Repr

/-- `SystemState` (src/smart_witness_fixed.ino:93-100).  `ERROR` is the
terminal failure state for the attempt: `handleError` restarts the device. -/
inductive SystemState where
  | INIT
  | BLE_CONFIG
  | AUTO_PERSONAL_CONFIG
  | AUTO_GROUP_WAIT
  | AUTO_OPERATIONAL
  | ERROR
  deriving DecidableEq, Repr

/-- Embeds `startPersonalConfigPhase` (src/smart_witness_fixed.ino:1002-1027):
reset phase, phase start time, attempt counter and the personal binding.
The fresh device id generated at line 1009 is a LOCAL variable of the source
function: it is printed in the pairing link but never stored in the session,
so the session carries no active token for this phase. -/
def startPersonalConfigPhase (now : Nat) (sess : AutoTelegramSession) :
    AutoTelegramSession :=
  { sess with currentPhase := .AUTO_PHASE_PERSONAL_CONFIG,
              phaseStartTime := now, pollAttempts := 0, personalChatId := [] }

/-- Embeds `startGroupWaitingPhase` (src/smart_witness_fixed.ino:1029-1041). -/
def startGroupWaitingPhase (now : Nat) (sess : AutoTelegramSession) :
    AutoTelegramSession :=
  { sess with currentPhase := .AUTO_PHASE_WAITING_FOR_GROUP,
              phaseStartTime := now, pollAttempts := 0 }

/-- The acceptance test of `handlePersonalConfigMessage`
(src/smart_witness_fixed.ino:1161-1177): the text only has to START WITH
`"/start "` (no token is compared), and the normalized sender name must equal
the stored expected user (`config.telegramUser`). -/
def personalConfigMatches (telegramUser : Str) (m : Msg) : Bool :=
  ("/start ".data).isPrefixOf m.text &&
    normalizeTelegramUsername m.from_name == telegramUser

/-- Embeds `pollForPersonalConfig` (src/smart_witness_fixed.ino:1043-1080):
count the attempt, then scan the fetched batch with
`handlePersonalConfigMessage`; the first accepted message binds
`personalChatId` (line 1184) and ends the phase successfully.
`fetched = none` is a failed fetch. -/
def pollForPersonalConfig (telegramUser : Str) (sess : AutoTelegramSession)
    (fetched : Option (List Msg)) : Bool × AutoTelegramSession :=
  let sess := { sess with pollAttempts := sess.pollAttempts + 1 }
  match fetched with
  | none => (false, sess)
  | some msgs =>
    match msgs.find? (personalConfigMatches telegramUser) with
    | some m => (true, { sess with personalChatId := m.chat_id })
    | none => (false, sess)

/-- The group-evidence test of `pollForGroupDetection`
(src/smart_witness_fixed.ino:1111-1121): the chat id must start with a minus
sign, and the text must contain "added" or "joined", or be exactly "/start",
or start with "/start@", or the chat id must differ from the bound personal
chat id. -/
def isGroupEvidence (personalChatId : Str) (m : Msg) : Bool :=
  ['-'].isPrefixOf m.chat_id &&
  (containsSub m.text "added".data || containsSub m.text "joined".data ||
   m.text == "/start".data || ("/start@".data).isPrefixOf m.text ||
   !(m.chat_id == personalChatId))

/-- Embeds `pollForGroupDetection` (src/smart_witness_fixed.ino:1082-1159):
count the attempt, scan the fetched batch, and bind `groupChatId` to the chat
of the first message classified as group evidence. -/
def pollForGroupDetection (sess : AutoTelegramSession)
    (fetched : Option (List Msg)) : Bool × AutoTelegramSession :=
  let sess := { sess with pollAttempts := sess.pollAttempts + 1 }
  match fetched with
  | none => (false, sess)
  | some msgs =>
    match msgs.find? (isGroupEvidence sess.personalChatId) with
    | some m => (true, { sess with groupChatId := m.chat_id })
    | none => (false, sess)

/-- Result of one tick of a phase handler: next `currentState`, the auto
session, and the handler's `lastPoll` static. -/
structure AutoTickResult where
  state : SystemState
  session : AutoTelegramSession
  lastPoll : Nat
  deriving DecidableEq, Repr

/-- Embeds `handleAutoPersonalConfig` (src/smart_witness_fixed.ino:476-497):
first the wall-clock deadline check (to `ERROR`), then — every 2000 ms — one
poll; a successful poll starts the group phase.  No attempt bound is
consulted. -/
def handleAutoPersonalConfig (now lastPoll : Nat) (telegramUser : Str)
    (sess : AutoTelegramSession) (fetched : Option (List Msg)) :
    AutoTickResult :=
  if PERSONAL_CONFIG_TIMEOUT < now - sess.phaseStartTime then
    ⟨.ERROR, sess, lastPoll⟩
  else if 2000 ≤ now - lastPoll then
    let r := pollForPersonalConfig telegramUser sess fetched
    if r.1 then ⟨.AUTO_GROUP_WAIT, startGroupWaitingPhase now r.2, now⟩
    else ⟨.AUTO_PERSONAL_CONFIG, r.2, now⟩
  else ⟨.AUTO_PERSONAL_CONFIG, sess, lastPoll⟩

/-- Embeds `handleAutoGroupWait` (src/smart_witness_fixed.ino:499-522):
deadline elapse moves to `AUTO_OPERATIONAL` with the session untouched
(a soft timeout); a successful poll moves to `AUTO_OPERATIONAL` only when the
confirmation photo send (`photoOK`) succeeds.  No attempt bound is
consulted. -/
def handleAutoGroupWait (now lastPoll : Nat) (sess : AutoTelegramSession)
    (fetched : Option (List Msg)) (photoOK : Bool) : AutoTickResult :=
  if GROUP_WAIT_TIMEOUT < now - sess.phaseStartTime then
    ⟨.AUTO_OPERATIONAL, sess, lastPoll⟩
  else if 2000 ≤ now - lastPoll then
    let r := pollForGroupDetection sess fetched
    if r.1 then
      if photoOK then ⟨.AUTO_OPERATIONAL, r.2, now⟩
      else ⟨.AUTO_GROUP_WAIT, r.2, now⟩
    else ⟨.AUTO_GROUP_WAIT, r.2, now⟩
  else ⟨.AUTO_GROUP_WAIT, sess, lastPoll⟩

/-! ### The message cursor. -/

/-- Modelled from the spec: the cursor-advancing fetch of the claim transport.
The cursor (`bot->last_message_received`) lives in the UniversalTelegramBot
library, which is not part of this repository's sources; spec §4.2 states that
each call fetches the messages newer than the cursor and "advances the
MessageCursor past the batch unconditionally".  The remote stream is the list
of all messages posted so far; the cursor counts the consumed positions. -/
def getUpdates (stream : List Msg) (cursor : Nat) : List Msg × Nat :=
  let batch := stream.drop cursor
  (batch, cursor + batch.length)

/-- Iterated polling: `streams` gives the remote stream contents seen by each
successive call (the stream only grows between calls). -/
def runPolls (cursor : Nat) : List (List Msg) → Nat
  | [] => cursor
  | st :: rest => runPolls (getUpdates st cursor).2 rest

/-! ### Helper lemmas about the character-level operations. -/

theorem toNat_ofNat_upper (n : Nat) (h1 : 65 ≤ n) (h2 : n ≤ 90) :
    (Char.ofNat (n + 32)).toNat = n + 32 := by
  interval_cases n <;> decide

theorem lowerChar_idem (c : Char) : lowerChar (lowerChar c) = lowerChar c := by
  unfold lowerChar
  by_cases h : 65 ≤ c.toNat ∧ c.toNat ≤ 90
  · rw [if_pos h, if_neg (by rw [toNat_ofNat_upper c.toNat h.1 h.2]; omega)]
  · rw [if_neg h, if_neg h]

theorem lowerChar_not_space (c : Char) (h : isSpaceChar c = false) :
    isSpaceChar (lowerChar c) = false := by
  unfold lowerChar
  by_cases hc : 65 ≤ c.toNat ∧ c.toNat ≤ 90
  · rw [if_pos hc]
    simp only [isSpaceChar, Bool.or_eq_false_iff, decide_eq_false_iff_not,
      toNat_ofNat_upper c.toNat hc.1 hc.2]
    omega
  · rwa [if_neg hc]

theorem dropWhile_eq_self_of_head (l : Str)
    (h : ∀ c, l.head? = some c → isSpaceChar c = false) :
    l.dropWhile isSpaceChar = l := by
  cases l with
  | nil => rfl
  | cons c t =>
    rw [List.dropWhile_cons, if_neg (by simp [h c rfl])]

theorem head_dropWhile_space (l : Str) :
    ∀ c, (l.dropWhile isSpaceChar).head? = some c → isSpaceChar c = false := by
  intro c hc
  have hne : l.dropWhile isSpaceChar ≠ [] := by
    intro hnil; rw [hnil] at hc; cases hc
  have hhead := List.head_dropWhile_not isSpaceChar l hne
  rw [List.head?_eq_head hne] at hc
  injection hc with hc
  rwa [hc] at hhead

theorem normalize_head (u : Str) :
    ['@'].isPrefixOf (normalizeTelegramUsername u) = true := by
  unfold normalizeTelegramUsername
  by_cases h : ['@'].isPrefixOf (lowerStr (trimStr u)) = true
  · rwa [if_pos h]
  · rw [if_neg h]
    simp [List.isPrefixOf]

theorem isPrefixOf_at_iff (l : Str) :
    ['@'].isPrefixOf l = true ↔ l.head? = some '@' := by
  rw [List.isPrefixOf_iff_prefix]
  cases l with
  | nil => exact iff_of_false (by simp) (by simp)
  | cons a t =>
    rw [List.cons_prefix_cons]
    simp [eq_comm]

theorem normalize_head_not_space (u : Str) :
    ∀ c, (normalizeTelegramUsername u).head? = some c → isSpaceChar c = false := by
  intro c hc
  rw [(isPrefixOf_at_iff _).mp (normalize_head u)] at hc
  injection hc with hc
  rw [← hc]
  decide

theorem head_rev_lower_trim (u : Str) :
    ∀ d, ((lowerStr (trimStr u)).reverse).head? = some d → isSpaceChar d = false := by
  intro d hd
  have h1 : (lowerStr (trimStr u)).reverse
      = (((u.dropWhile isSpaceChar).reverse).dropWhile isSpaceChar).map lowerChar := by
    unfold lowerStr trimStr
    rw [List.map_reverse, List.reverse_reverse]
  rw [h1, List.head?_map] at hd
  cases he : (((u.dropWhile isSpaceChar).reverse).dropWhile isSpaceChar).head? with
  | none => rw [he] at hd; cases hd
  | some e =>
    rw [he] at hd
    injection hd with hd
    rw [← hd]
    exact lowerChar_not_space e (head_dropWhile_space _ e he)

theorem normalize_rev_head (u : Str) :
    ∀ d, ((normalizeTelegramUsername u).reverse).head? = some d →
      isSpaceChar d = false := by
  intro d hd
  unfold normalizeTelegramUsername at hd
  by_cases h : ['@'].isPrefixOf (lowerStr (trimStr u)) = true
  · rw [if_pos h] at hd
    exact head_rev_lower_trim u d hd
  · rw [if_neg h, List.reverse_cons, List.head?_append] at hd
    cases hw : ((lowerStr (trimStr u)).reverse).head? with
    | none =>
      rw [hw] at hd
      injection hd with hd
      rw [← hd]
      decide
    | some e =>
      rw [hw] at hd
      injection hd with hd
      rw [← hd]
      exact head_rev_lower_trim u e hw

theorem trimStr_normalize (u : Str) :
    trimStr (normalizeTelegramUsername u) = normalizeTelegramUsername u := by
  unfold trimStr
  rw [dropWhile_eq_self_of_head _ (normalize_head_not_space u),
      dropWhile_eq_self_of_head _ (normalize_rev_head u), List.reverse_reverse]

theorem lowerStr_normalize (u : Str) :
    lowerStr (normalizeTelegramUsername u) = normalizeTelegramUsername u := by
  unfold normalizeTelegramUsername
  by_cases h : ['@'].isPrefixOf (lowerStr (trimStr u)) = true
  · rw [if_pos h]
    unfold lowerStr
    rw [List.map_map]
    exact List.map_congr_left (fun a _ => lowerChar_idem a)
  · rw [if_neg h]
    unfold lowerStr
    rw [List.map_cons, List.map_map]
    have h2 : List.map (lowerChar ∘ lowerChar) (trimStr u) =
        List.map lowerChar (trimStr u) :=
      List.map_congr_left (fun a _ => lowerChar_idem a)
    rw [h2]
    congr 1

/-- C10: owner-identity normalization is idempotent — normalizing an
already-normalized username changes nothing
(`normalizeTelegramUsername`, src/smart_witness_fixed.ino:1493-1500). -/
theorem normalizeTelegramUsername_idem (u : Str) :
    normalizeTelegramUsername (normalizeTelegramUsername u) =
      normalizeTelegramUsername u := by
  have hstep : normalizeTelegramUsername (normalizeTelegramUsername u) =
      if ['@'].isPrefixOf (lowerStr (trimStr (normalizeTelegramUsername u)))
      then lowerStr (trimStr (normalizeTelegramUsername u))
      else '@' :: lowerStr (trimStr (normalizeTelegramUsername u)) := rfl
  rw [hstep, trimStr_normalize, lowerStr_normalize,
      if_pos (normalize_head u)]

/-! ### C9: the owner-identity validation gate. -/

/-- The identity-format check exactly as claim C9 words it: after
normalization the string has length between 2 and 33 inclusive, begins with
the sigil character, and every remaining character is a lowercase letter, a
digit, or an underscore. -/
def specOwnerIdentityOk (user : Str) : Prop :=
  2 ≤ (normalizeTelegramUsername user).length ∧
  (normalizeTelegramUsername user).length ≤ 33 ∧
  (normalizeTelegramUsername user).head? = some '@' ∧
  ∀ c ∈ (normalizeTelegramUsername user).drop 1,
    ('a' ≤ c ∧ c ≤ 'z') ∨ ('0' ≤ c ∧ c ≤ '9') ∨ c = '_'

theorem char_eq_of_toNat (c : Char) (n : Nat) (h : c.toNat = n) :
    c = Char.ofNat n := by
  rw [← h, Char.ofNat_toNat]

instance specOwnerIdentityOk.dec (user : Str) :
    Decidable (specOwnerIdentityOk user) := by
  unfold specOwnerIdentityOk
  infer_instance

theorem isAllowedUserChar_iff (c : Char) :
    isAllowedUserChar c = true ↔
      (('a' ≤ c ∧ c ≤ 'z') ∨ ('0' ≤ c ∧ c ≤ '9') ∨ c = '_') := by
  unfold isAllowedUserChar
  simp only [Bool.or_eq_true, Bool.and_eq_true, decide_eq_true_eq, beq_iff_eq]
  constructor
  · rintro ((⟨g1, g2⟩ | ⟨g1, g2⟩) | g)
    · exact Or.inl ⟨g1, g2⟩
    · exact Or.inr (Or.inl ⟨g1, g2⟩)
    · refine Or.inr (Or.inr ?_)
      rw [char_eq_of_toNat c 95 g]
  · rintro (⟨g1, g2⟩ | ⟨g1, g2⟩ | g)
    · exact Or.inl (Or.inl ⟨g1, g2⟩)
    · exact Or.inl (Or.inr ⟨g1, g2⟩)
    · refine Or.inr ?_
      rw [g]
      decide

theorem validate_iff_spec (user : Str) :
    validateTelegramUsername user = true ↔ specOwnerIdentityOk user := by
  unfold validateTelegramUsername specOwnerIdentityOk
  by_cases h1 : (normalizeTelegramUsername user).length < 2
  · rw [if_pos h1]
    refine iff_of_false (by simp) ?_
    rintro ⟨h2, -⟩
    omega
  · by_cases h2 : 33 < (normalizeTelegramUsername user).length
    · rw [if_neg h1, if_pos h2]
      refine iff_of_false (by simp) ?_
      rintro ⟨-, h3, -⟩
      omega
    · rw [if_neg h1, if_neg h2]
      rw [if_neg (by rw [normalize_head user]; simp)]
      constructor
      · intro hall
        refine ⟨by omega, by omega, (isPrefixOf_at_iff _).mp (normalize_head user), ?_⟩
        intro c hc
        exact (isAllowedUserChar_iff c).mp (List.all_eq_true.mp hall c hc)
      · rintro ⟨-, -, -, hall⟩
        exact List.all_eq_true.mpr fun c hc =>
          (isAllowedUserChar_iff c).mpr (hall c hc)

/-- C9: when every required field of the payload is nonempty, the
configuration is rejected with the invalid-owner-identity status
(`error_invalid_telegram_user`) iff the owner-identity string fails the
identity-format check of the specification; otherwise validation succeeds
(`processBLEConfiguration`, src/smart_witness_fixed.ino:630-660, and
`validateTelegramUsername`, lines 1502-1517). -/
theorem bleConfig_rejects_invalid_owner_identity (ssid password telegramUser : Str)
    (h1 : ssid ≠ []) (h2 : password ≠ []) (h3 : telegramUser ≠ []) :
    (processBLEConfigStatus ssid password telegramUser =
        .error_invalid_telegram_user) ↔
      ¬ specOwnerIdentityOk telegramUser := by
  unfold processBLEConfigStatus
  rw [if_neg (by
    simp only [Bool.or_eq_true, decide_eq_true_eq, List.length_eq_zero]
    rintro ((h | h) | h)
    exacts [h1 h, h2 h, h3 h])]
  cases hb : validateTelegramUsername telegramUser with
  | false =>
    rw [if_pos (by decide)]
    refine iff_of_true rfl ?_
    intro hs
    rw [(validate_iff_spec telegramUser).mpr hs] at hb
    cases hb
  | true =>
    rw [if_neg (by simp)]
    refine iff_of_false (by simp) ?_
    intro hns
    exact hns ((validate_iff_spec telegramUser).mp hb)

/-- Witness for C9 at a concrete rejected payload: owner identity "al ice"
(space is not an allowed character) with nonempty ssid and password. -/
theorem bleConfig_rejects_invalid_owner_identity_witness :
    processBLEConfigStatus "home".data "secret1".data "al ice".data =
      .error_invalid_telegram_user :=
  (bleConfig_rejects_invalid_owner_identity "home".data "secret1".data
      "al ice".data (by decide) (by decide) (by decide)).mpr (by decide)

/-! ### C1-C3: the personal-claim matching policy. -/

/-- C1: evaluation at the failing input "/start AB12 extra" with active token
"AB12".  The BLE auto-response matcher (src/smart_witness_fixed.ino:945)
accepts it because it only prefix-matches `"/start " + deviceId`, and the
AUTO-phase matcher (line 1164) accepts any `"/start "`-prefixed text from the
expected user without comparing the token at all; the claim requires exact
equality with `"/start " + token`, so a text with trailing extra characters
must not match. -/
theorem personalClaim_prefix_match_failing_input :
    (handleAutoResponseMessage
      ⟨"AB12".data, "@alice".data, [], false, true, true, 0, 0, 0, true, 600000⟩
      true
      ⟨"777".data, "/start AB12 extra".data, "Alice".data, "1".data⟩).1 = true ∧
    "/start AB12 extra".data ≠ "/start ".data ++ "AB12".data ∧
    personalConfigMatches "@alice".data
      ⟨"777".data, "/start AB12 extra".data, "Alice".data, "1".data⟩ = true := by
  refine ⟨by decide, by decide, by decide⟩

/-- C2: evaluation at the failing input.  `startPersonalConfigPhase` begins a
brand-new session (the freshly generated device id is a discarded local,
src/smart_witness_fixed.ino:1009), yet a message carrying an old session's
token, "/start DEVICE_FIXED_OLD_1234", sent by the expected owner, still
produces a personal-claim match, because `handlePersonalConfigMessage`
(line 1164) never compares any token. -/
theorem oldToken_matches_after_new_session :
    (startPersonalConfigPhase 5000
        ⟨.AUTO_PHASE_COMPLETE, 0, 7, "111".data, []⟩).personalChatId = [] ∧
    (pollForPersonalConfig "@alice".data
        (startPersonalConfigPhase 5000 ⟨.AUTO_PHASE_COMPLETE, 0, 7, "111".data, []⟩)
        (some [⟨"222".data, "/start DEVICE_FIXED_OLD_1234".data,
               "Alice".data, "1".data⟩])).1 = true := by
  refine ⟨by decide, by decide⟩

/-- C3: evaluation at the failing input.  The BLE auto-response matcher
(src/smart_witness_fixed.ino:941-952) recognises "/start AB12" as the
auto-config command and completes the configuration although the sender
"Mallory" normalizes to "@mallory", which differs from the session's expected
owner "@alice": the sender identity is never consulted. -/
theorem autoResponse_ignores_sender :
    (handleAutoResponseMessage
      ⟨"AB12".data, "@alice".data, [], false, true, true, 0, 0, 0, true, 600000⟩
      true
      ⟨"999".data, "/start AB12".data, "Mallory".data, "666".data⟩).1 = true ∧
    normalizeTelegramUsername "Mallory".data ≠ "@alice".data ∧
    (handleAutoResponseMessage
      ⟨"AB12".data, "@alice".data, [], false, true, true, 0, 0, 0, true, 600000⟩
      true
      ⟨"999".data, "/start AB12".data, "Mallory".data, "666".data⟩).2.telegramConfigured
      = true := by
  refine ⟨by decide, by decide, by decide⟩

/-! ### C4: the group-evidence classification. -/

/-- The group-evidence classification exactly as claim C4 states it: the chat
must be a group one (in the code, the chat id starts with a minus sign), and
the text must contain a member-added indicator ("added" or "joined"), or be
exactly the bare start command, or come from a chat other than the bound
personal one. -/
def claimGroupEvidence (personalChatId : Str) (m : Msg) : Prop :=
  ['-'].isPrefixOf m.chat_id = true ∧
  (containsSub m.text "added".data = true ∨
   containsSub m.text "joined".data = true ∨
   m.text = "/start".data ∨ m.chat_id ≠ personalChatId)

instance claimGroupEvidence.dec (p : Str) (m : Msg) :
    Decidable (claimGroupEvidence p m) := by
  unfold claimGroupEvidence
  infer_instance

/-- Claim C4 as amended: the start-command disjunct also admits texts that
merely start with the bot-addressed form "/start@", matching the source test
`text == "/start" || text.startsWith("/start@")`
(src/smart_witness_fixed.ino:1120). -/
def amendedGroupEvidence (personalChatId : Str) (m : Msg) : Prop :=
  ['-'].isPrefixOf m.chat_id = true ∧
  (containsSub m.text "added".data = true ∨
   containsSub m.text "joined".data = true ∨
   m.text = "/start".data ∨ ("/start@".data).isPrefixOf m.text = true ∨
   m.chat_id ≠ personalChatId)

instance amendedGroupEvidence.dec (p : Str) (m : Msg) :
    Decidable (amendedGroupEvidence p m) := by
  unfold amendedGroupEvidence
  infer_instance

/-- C4 counterexample: with the personal binding itself a group chat id
("-100" — nothing in the personal phase forbids that), a message in that very
chat with text "/start@SmartWitnessBot go" is classified as group evidence by
the code (it starts with "/start@"), while the claim's classification says it
is not: the text is not exactly a bare start command, contains no
member-added indicator, and the chat does not differ from the personal one.
The same instance violates the claim's "messages in the personal chat are not
group evidence" clause. -/
theorem groupEvidence_claim_counterexample :
    isGroupEvidence "-100".data
      ⟨"-100".data, "/start@SmartWitnessBot go".data, "bob".data, "2".data⟩ = true ∧
    ¬ claimGroupEvidence "-100".data
      ⟨"-100".data, "/start@SmartWitnessBot go".data, "bob".data, "2".data⟩ := by
  refine ⟨by decide, by decide⟩

/-- C4 (amended): a message is group evidence iff its chat id marks a group
conversation AND (its text contains "added" or "joined", OR its text is
exactly "/start" or starts with "/start@", OR its chat id differs from the
bound personal chat id) — the code's classification coincides with the
amended disjunction for every state and message. -/
theorem isGroupEvidence_iff_amended (p : Str) (m : Msg) :
    isGroupEvidence p m = true ↔ amendedGroupEvidence p m := by
  unfold isGroupEvidence amendedGroupEvidence
  simp only [Bool.and_eq_true, Bool.or_eq_true, beq_iff_eq,
    Bool.not_eq_true', beq_eq_false_iff_ne]
  tauto

/-! ### C5: attempt budgets versus deadlines. -/

/-- C5 counterexample: within their deadlines, a tick of the personal-claim
and the group-discovery handler with an attempt counter of 10^9 — far beyond
every budget constant in the program — and no matching message leaves the
phase running: these two polling phases consult no attempt budget, so attempt
exhaustion cannot end them the way the deadline does. -/
theorem pollingPhase_attempts_unbounded :
    (handleAutoPersonalConfig 100000 0 "@alice".data
      ⟨.AUTO_PHASE_PERSONAL_CONFIG, 0, 1000000000, [], []⟩
      (some [])).state = .AUTO_PERSONAL_CONFIG ∧
    (handleAutoGroupWait 100000 0
      ⟨.AUTO_PHASE_WAITING_FOR_GROUP, 0, 1000000000, "111".data, []⟩
      (some []) true).state = .AUTO_GROUP_WAIT := by
  refine ⟨by decide, by decide⟩

/-- C5 (amended): only the BLE auto-response polling phase has both an
independent attempt budget (`MAX_AUTO_RESPONSE_ATTEMPTS`) and an independent
wall-clock deadline, and exhausting the budget ends that phase with the
identical result as the deadline elapsing — no event, polling stopped, same
session state; the personal-claim and group-discovery polling phases have
only wall-clock deadlines: within the deadline an attempt counter of any size
never ends the phase. -/
theorem budget_and_deadline_amended :
    (∀ now sess fetched sendOK, sess.autoResponseEnabled = true →
      sess.isPollingActive = true → sess.autoResponseTimeout < now →
      processTelegramAutoResponse now sess fetched sendOK =
        (false, stopTelegramAutoResponse sess)) ∧
    (∀ now sess fetched sendOK, sess.autoResponseEnabled = true →
      sess.isPollingActive = true → now ≤ sess.autoResponseTimeout →
      MAX_AUTO_RESPONSE_ATTEMPTS ≤ sess.pollAttempts →
      processTelegramAutoResponse now sess fetched sendOK =
        (false, stopTelegramAutoResponse sess)) ∧
    (∀ now lastPoll user sess,
      now - sess.phaseStartTime ≤ PERSONAL_CONFIG_TIMEOUT →
      (handleAutoPersonalConfig now lastPoll user sess (some [])).state =
        .AUTO_PERSONAL_CONFIG) ∧
    (∀ now lastPoll sess photoOK,
      now - sess.phaseStartTime ≤ GROUP_WAIT_TIMEOUT →
      (handleAutoGroupWait now lastPoll sess (some []) photoOK).state =
        .AUTO_GROUP_WAIT) := by
  refine ⟨?_, ?_, ?_, ?_⟩
  · intro now sess fetched sendOK h1 h2 h3
    unfold processTelegramAutoResponse
    rw [h1, h2, if_neg (by decide), if_pos h3]
  · intro now sess fetched sendOK h1 h2 h3 h4
    unfold processTelegramAutoResponse
    rw [h1, h2, if_neg (by decide), if_neg (Nat.not_lt.mpr h3), if_pos h4]
  · intro now lastPoll user sess h
    unfold handleAutoPersonalConfig
    rw [if_neg (by omega)]
    by_cases hp : 2000 ≤ now - lastPoll
    · rw [if_pos hp]
      simp [pollForPersonalConfig]
    · rw [if_neg hp]
  · intro now lastPoll sess photoOK h
    unfold handleAutoGroupWait
    rw [if_neg (by omega)]
    by_cases hp : 2000 ≤ now - lastPoll
    · rw [if_pos hp]
      simp [pollForGroupDetection]
    · rw [if_neg hp]

/-- Witness for the amended C5 at concrete inputs: a deadline-expired BLE
tick, a budget-exhausted BLE tick (identical results), and in-deadline ticks
of the two other phases with huge attempt counters. -/
theorem budget_and_deadline_amended_witness :
    processTelegramAutoResponse 700001
      ⟨"AB12".data, "@alice".data, [], false, true, true, 0, 0, 0, true, 600000⟩
      none true =
      (false, stopTelegramAutoResponse
        ⟨"AB12".data, "@alice".data, [], false, true, true, 0, 0, 0, true, 600000⟩) ∧
    processTelegramAutoResponse 1000
      ⟨"AB12".data, "@alice".data, [], false, true, true, 0, 300, 0, true, 600000⟩
      none true =
      (false, stopTelegramAutoResponse
        ⟨"AB12".data, "@alice".data, [], false, true, true, 0, 300, 0, true, 600000⟩) ∧
    (handleAutoPersonalConfig 100 0 "@alice".data
      ⟨.AUTO_PHASE_PERSONAL_CONFIG, 0, 999999, [], []⟩ (some [])).state =
      .AUTO_PERSONAL_CONFIG ∧
    (handleAutoGroupWait 100 0
      ⟨.AUTO_PHASE_WAITING_FOR_GROUP, 0, 999999, "111".data, []⟩
      (some []) true).state = .AUTO_GROUP_WAIT :=
  ⟨budget_and_deadline_amended.1 700001 _ none true rfl rfl (by decide),
   budget_and_deadline_amended.2.1 1000 _ none true rfl rfl (by decide) (by decide),
   budget_and_deadline_amended.2.2.1 100 0 "@alice".data _ (by decide),
   budget_and_deadline_amended.2.2.2 100 0 _ true (by decide)⟩

/-! ### C6 and C7: the two phase timeouts. -/

/-- C6: when the personal-claim deadline has elapsed, one tick of
`handleAutoPersonalConfig` (src/smart_witness_fixed.ino:477-484) moves the
machine to the terminal failure state `ERROR` with the session untouched: no
transition to group discovery or operational occurs. -/
theorem personalClaim_timeout_to_failed (now lastPoll : Nat) (user : Str)
    (sess : AutoTelegramSession) (fetched : Option (List Msg))
    (h : PERSONAL_CONFIG_TIMEOUT < now - sess.phaseStartTime) :
    handleAutoPersonalConfig now lastPoll user sess fetched =
      ⟨.ERROR, sess, lastPoll⟩ := by
  unfold handleAutoPersonalConfig
  rw [if_pos h]

/-- Witness for C6: three minutes and twenty seconds into the phase, with no
messages at all, the tick lands in `ERROR`. -/
theorem personalClaim_timeout_to_failed_witness :
    PERSONAL_CONFIG_TIMEOUT < 200000 - 0 ∧
    handleAutoPersonalConfig 200000 0 "@alice".data
      ⟨.AUTO_PHASE_PERSONAL_CONFIG, 0, 3, [], []⟩ (some []) =
      ⟨.ERROR, ⟨.AUTO_PHASE_PERSONAL_CONFIG, 0, 3, [], []⟩, 0⟩ :=
  ⟨by decide, personalClaim_timeout_to_failed 200000 0 "@alice".data
      ⟨.AUTO_PHASE_PERSONAL_CONFIG, 0, 3, [], []⟩ (some []) (by decide)⟩

/-- C7: when the group-discovery deadline has elapsed, one tick of
`handleAutoGroupWait` (src/smart_witness_fixed.ino:500-506) moves the machine
to `AUTO_OPERATIONAL` (not to the failure state) with the session untouched:
the group binding stays exactly as it was — empty if it was empty — and the
personal binding is kept unchanged. -/
theorem groupDiscovery_timeout_to_operational (now lastPoll : Nat)
    (sess : AutoTelegramSession) (fetched : Option (List Msg)) (photoOK : Bool)
    (h : GROUP_WAIT_TIMEOUT < now - sess.phaseStartTime) :
    handleAutoGroupWait now lastPoll sess fetched photoOK =
      ⟨.AUTO_OPERATIONAL, sess, lastPoll⟩ := by
  unfold handleAutoGroupWait
  rw [if_pos h]

/-- Witness for C7: past the five-minute deadline with an empty group
binding, the tick lands in `AUTO_OPERATIONAL`, the group binding still empty
and the personal binding intact. -/
theorem groupDiscovery_timeout_to_operational_witness :
    GROUP_WAIT_TIMEOUT < 400000 - 0 ∧
    handleAutoGroupWait 400000 0
      ⟨.AUTO_PHASE_WAITING_FOR_GROUP, 0, 9, "111".data, []⟩ (some []) true =
      ⟨.AUTO_OPERATIONAL, ⟨.AUTO_PHASE_WAITING_FOR_GROUP, 0, 9, "111".data, []⟩, 0⟩ :=
  ⟨by decide, groupDiscovery_timeout_to_operational 400000 0
      ⟨.AUTO_PHASE_WAITING_FOR_GROUP, 0, 9, "111".data, []⟩ (some []) true (by decide)⟩

/-! ### C8: the message cursor. -/

theorem runPolls_chain (streams : List (List Msg)) :
    ∀ c, streams.Chain' (fun a b => a.length ≤ b.length) →
      (∀ st, streams.head? = some st → c ≤ st.length) →
      streams ≠ [] →
      runPolls c streams = ((streams.getLast?).getD []).length := by
  induction streams with
  | nil => intro c _ _ h; exact absurd rfl h
  | cons st rest ih =>
    intro c hch hc _
    have hcle : c ≤ st.length := hc st rfl
    have hcur : (getUpdates st c).2 = st.length := by
      simp only [getUpdates, List.length_drop]
      omega
    show runPolls (getUpdates st c).2 rest = _
    rw [hcur]
    cases rest with
    | nil => simp [runPolls]
    | cons b l =>
      have hch2 := List.chain'_cons.mp hch
      rw [List.getLast?_cons_cons]
      exact ih st.length hch2.2
        (fun s hs => by injection hs with hs; rw [← hs]; exact hch2.1)
        (by simp)

/-- C8: the message cursor of the modelled claim transport never decreases,
is advanced past the fetched batch unconditionally (independently of any
matching), and — starting from the reset value 0 that a brand-new session
installs (src/smart_witness_fixed.ino:832) — after N polls over a growing
stream it equals the position just past the last message observed across all
N calls, the length of the final stream, even when zero matches occurred. -/
theorem messageCursor_invariants :
    (∀ (st : List Msg) (c : Nat), c ≤ (getUpdates st c).2) ∧
    (∀ (st : List Msg) (c : Nat),
      (getUpdates st c).2 = c + ((getUpdates st c).1).length) ∧
    runPolls 0 [] = 0 ∧
    (∀ streams : List (List Msg),
      streams.Chain' (fun a b => a.length ≤ b.length) → streams ≠ [] →
      runPolls 0 streams = ((streams.getLast?).getD []).length) := by
  refine ⟨fun st c => Nat.le_add_right _ _, fun st c => rfl, rfl, ?_⟩
  intro streams hch hne
  exact runPolls_chain streams 0 hch (fun st _ => Nat.zero_le _) hne

/-- Witness for C8: two polls, the stream growing from one to two messages,
leave the cursor at 2, just past the last observed message. -/
theorem messageCursor_invariants_witness :
    runPolls 0
      [[⟨"1".data, "hi".data, "a".data, "1".data⟩],
       [⟨"1".data, "hi".data, "a".data, "1".data⟩,
        ⟨"2".data, "yo".data, "b".data, "2".data⟩]] = 2 :=
  (messageCursor_invariants.2.2.2
    [[⟨"1".data, "hi".data, "a".data, "1".data⟩],
     [⟨"1".data, "hi".data, "a".data, "1".data⟩,
      ⟨"2".data, "yo".data, "b".data, "2".data⟩]]
    (by refine List.chain'_cons.mpr ⟨by decide, ?_⟩; simp)
    (by decide)).trans (by decide)

end SmartWitness
